import Mathlib

/-!
Verification of the tweet-to-blog HTTP handlers.

The repository has two route handlers:
* `POST app/api/tweets/[id]/publish/route.ts` — publishes a generated
  article to a WordPress site (with image uploads) or unpublishes it, and
* a `DELETE` handler that bulk-deletes all stored tweets.

The handlers are sequential I/O orchestration.  We embed them shallowly:
JavaScript values are modelled by the inductive `JVal` (with `undefined` for
the JS undefined), each outbound interaction (store, settings, image
download/upload, post creation) is resolved by an explicit environment,
and every handler returns its HTTP response together with a record of the
observable side effects it performed (upload attempts, the post-creation
request, and `updatePublished` calls).  Thrown JS exceptions are modelled
with `Except String`; the top-level try/catch of each handler converts an
error into the 500 response, keeping the effects already performed.
-/

/-- A JavaScript/JSON value as the handlers manipulate it.  `undefined` models
the JS `undefined` (e.g. a missing object field). -/
inductive JVal where
  | undefined : JVal
  | null : JVal
  | bool : Bool → JVal
  | num : Int → JVal
  | str : String → JVal
  | arr : List JVal → JVal
  | obj : List (String × JVal) → JVal

/-- JS truthiness: `undefined`, `null`, `false`, `0` and the empty string
are falsy, everything else (objects, arrays, other numbers and strings)
is truthy. -/
def truthy : JVal → Bool
  | .undefined => false
  | .null => false
  | .bool b => b
  | .num n => n != 0
  | .str s => s != ""
  | .arr _ => true
  | .obj _ => true

/-- The JS `a || b` short-circuit: `a` when truthy, else `b`. -/
def jsOr (a b : JVal) : JVal :=
  if truthy a then a else b

/-- First binding of a key in an object literal list. -/
def lookupField : List (String × JVal) → String → JVal
  | [], _ => .undefined
  | (k, v) :: rest, key => if k = key then v else lookupField rest key

/-- Is the value `null` or `undefined` (property access on it throws)? -/
def isNullish : JVal → Bool
  | .null => true
  | .undefined => true
  | _ => false

/-- JS property access `v.key` on a non-nullish value: a field of an
object, `undefined` on every other value (primitives box, arrays have no
such fields). -/
def propOf : JVal → String → JVal
  | .obj fs, key => lookupField fs key
  | _, _ => .undefined

/-- JS strict equality `v === s` against a string literal. -/
def jstrEq (v : JVal) (s : String) : Bool :=
  match v with
  | .str t => t = s
  | _ => false

/-- JS template-literal stringification, for the values interpolated by
the handlers (always strings there). -/
def jsTemplate : JVal → String
  | .str s => s
  | .num n => toString n
  | .bool true => "true"
  | .bool false => "false"
  | .null => "null"
  | .undefined => "undefined"
  | .arr _ => ""
  | .obj _ => "[object Object]"

/-- JS `parseInt` in base 10: skip leading whitespace, read an optional
sign and then leading decimal digits; `none` models `NaN` (no digits). -/
def parseIntJS (s : String) : Option Int :=
  let cs := s.toList.dropWhile (fun c => c = ' ' ∨ c = '\t' ∨ c = '\n' ∨ c = '\r')
  let signAndRest : Int × List Char :=
    match cs with
    | '-' :: rest => (-1, rest)
    | '+' :: rest => (1, rest)
    | _ => (1, cs)
  let ds := signAndRest.2.takeWhile Char.isDigit
  if ds.isEmpty then none
  else some (signAndRest.1 * (ds.foldl (fun acc c => acc * 10 + (c.toNat - 48)) 0 : Nat))

/-- A stored tweet row, with the columns the handlers read.  The two
article columns and `media_urls` hold raw JS values (strings of JSON
text, already-structured objects, or null). -/
structure Tweet where
  id : Int
  username : String
  tweet_id : String
  article_english : JVal
  article_french : JVal
  media_urls : JVal

/-- Result of a successful media upload (`{ mediaId, url }`). -/
structure UploadedImage where
  mediaId : JVal
  url : JVal

/-- The fields `uploadImageToWordPress` reads from the media-creation
response body (`guid_rendered` models `guid?.rendered`). -/
structure MediaData where
  id : JVal
  source_url : JVal
  guid_rendered : JVal
  link : JVal

/-- Outcome of one `fetch` call: a thrown error (network failure or
timeout) or a response with its `ok` flag and status code. -/
inductive FetchOutcome where
  | exn : String → FetchOutcome
  | resp : Bool → Nat → FetchOutcome

/-- Environment resolving the I/O of one `uploadImageToWordPress` call:
the image download, the URL/buffer processing between the two fetches
(`midOk = false` models `new URL(imageUrl)` or `arrayBuffer()` throwing),
the media-endpoint upload, and the parse of its JSON body. -/
structure UploadEnv where
  imgFetch : FetchOutcome
  midOk : Bool
  upFetch : FetchOutcome
  mediaJson : Except String MediaData

/-- The body of `uploadImageToWordPress` before its try/catch: download
the image (`!imgResponse.ok` → null), build the form data, post it to the
media endpoint, and on a 201 with `id` and one of
`source_url || guid?.rendered || link` present return `{ mediaId, url }`;
any other outcome is null, any thrown error is an `Except.error`. -/
def uploadBody (env : UploadEnv) : Except String (Option UploadedImage) :=
  match env.imgFetch with
  | .exn m => .error m
  | .resp ok _ =>
    if !ok then .ok none
    else if !env.midOk then .error "invalid URL"
    else
      match env.upFetch with
      | .exn m => .error m
      | .resp _ status =>
        if status = 201 then
          match env.mediaJson with
          | .error m => .error m
          | .ok mediaData =>
            let uploadedUrl := jsOr mediaData.source_url (jsOr mediaData.guid_rendered mediaData.link)
            if truthy uploadedUrl && truthy mediaData.id then
              .ok (some ⟨mediaData.id, uploadedUrl⟩)
            else .ok none
        else .ok none

/-- `uploadImageToWordPress`: the body wrapped in its try/catch — every
thrown error is logged and becomes null, so the caller only ever sees an
`Option`. -/
def uploadImageToWordPress (env : UploadEnv) : Option UploadedImage :=
  match uploadBody env with
  | .ok r => r
  | .error _ => none

/-- The publish request: the `id` path parameter and the result of
`request.json()` (an `Except.error` models a malformed JSON body, which
throws). -/
structure Req where
  paramsId : String
  body : Except String JVal

/-- Outcome of the post-creation `fetch` (only its status is read). -/
inductive PostOutcome where
  | exn : String → PostOutcome
  | resp : Nat → PostOutcome

/-- Environment resolving the I/O of one `POST` request: the tweet store
rows, `JSON.parse` on stored text, the settings store, the per-call
upload environments (call `i` of the sequential upload loop uses
`uploadEnvs i`), the post-creation outcome, the parses of the upstream
response body in the error and success cases, the result of
`tweets.updatePublished`, and the `marked` renderer. -/
structure Env where
  store : List Tweet
  parse : String → Except String JVal
  settings : String → Option String
  uploadEnvs : Nat → UploadEnv
  postResp : PostOutcome
  postErrJson : Except String JVal
  postOkJson : Except String JVal
  updateOk : Bool
  marked : JVal → String

/-- An HTTP response: status code and JSON body. -/
structure Response where
  status : Nat
  body : JVal

/-- One recorded `tweets.updatePublished(id, language, published, link)`
call. -/
structure UpdateCall where
  id : Int
  language : JVal
  published : Bool
  link : JVal

/-- The JSON body sent to the WordPress post-creation endpoint. -/
structure PostData where
  title : JVal
  content : String
  status : JVal
  featured_media : Option JVal

/-- Observable side effects of one request: the image URLs for which an
upload was attempted (in order), how many post-creation calls were made,
the body of that call, and the `updatePublished` calls. -/
structure Effects where
  uploadCalls : List JVal
  postCalls : Nat
  postBody : Option PostData
  updates : List UpdateCall

/-- No effects yet. -/
def Effects.empty : Effects := ⟨[], 0, none, []⟩

/-- The 500 response produced by the top-level catch of the publish
handler. -/
def catchResp (m : String) : Response :=
  ⟨500, .obj [("error", .str "Failed to publish article"), ("message", .str m)]⟩

/-- A 4xx/5xx response with a single error message. -/
def mkErr (status : Nat) (msg : String) : Response :=
  ⟨status, .obj [("error", .str msg)]⟩

/-- Modelled from the spec: `tweets.getAll(limit, offset)` of `@/lib/db`
(not in src) returns at most `limit` rows of the store starting at
`offset`. -/
def tweets_getAll (store : List Tweet) (limit offset : Nat) : List Tweet :=
  (store.drop offset).take limit

/-- Modelled from the spec: `settings.get(key)` of `@/lib/db` (not in
src) is a key-value lookup returning the stored string or null. -/
def settings_get (settings : String → Option String) (key : String) : JVal :=
  match settings key with
  | some s => .str s
  | none => .null

/-- The per-entry decoding loop over a parsed `media_urls` array: a
string entry is its own URL, a nullish entry makes `mediaItem.mediaUrl`
throw a TypeError (caught by the surrounding catch, keeping the URLs
already pushed), and any other entry contributes
`mediaItem.mediaUrl || mediaItem.url || null`; only truthy URLs are
pushed. -/
def collectEntries : List JVal → List JVal → List JVal
  | [], acc => acc
  | .str s :: rest, acc =>
      collectEntries rest (if truthy (.str s) then acc ++ [.str s] else acc)
  | .null :: _, acc => acc
  | .undefined :: _, acc => acc
  | e :: rest, acc =>
      let url := jsOr (propOf e "mediaUrl") (jsOr (propOf e "url") .null)
      collectEntries rest (if truthy url then acc ++ [url] else acc)

/-- Decoding of the parsed `media_urls` value: only a non-empty array
contributes URLs. -/
def collectMedia : JVal → List JVal
  | .arr items => if items.length > 0 then collectEntries items [] else []
  | _ => []

/-- The media-URL stage of the publish handler: a falsy `media_urls`
column means no media; a string column is parsed as JSON, a parse error
(or a truthy non-string column, whose coercion through `JSON.parse`
fails or yields a non-array) is swallowed by the local catch and yields
no media. -/
def mediaUrlsOf (env : Env) (tweet : Tweet) : List JVal :=
  if !truthy tweet.media_urls then []
  else
    match tweet.media_urls with
    | .str s =>
      match env.parse s with
      | .error _ => []
      | .ok media => collectMedia media
    | _ => []

/-- The sequential upload loop: one `uploadImageToWordPress` call per
media URL, in input order, keeping the successful results in order. -/
def uploadedImagesOf (env : Env) (n : Nat) : List UploadedImage :=
  (List.range n).filterMap (fun i => uploadImageToWordPress (env.uploadEnvs i))

/-- One `<figure>` of the inline gallery, for the image at index `i` of
the successful uploads. -/
def figureHtml (url : JVal) (i : Nat) : String :=
  "<figure style=\"margin: 0; text-align: center;\">\n          <img src=\"" ++
    jsTemplate url ++ "\" alt=\"Article image " ++ toString i ++
    "\" style=\"max-width: 100%; height: auto; border-radius: 8px; box-shadow: 0 2px 8px rgba(0,0,0,0.1);\" />\n        </figure>"

/-- The `for (let i = 1; i < uploadedImages.length; i++)` loop body,
started at index 1. -/
def figuresFrom : List UploadedImage → Nat → String
  | [], _ => ""
  | img :: rest, i => figureHtml img.url i ++ figuresFrom rest (i + 1)

/-- The inline-gallery block: present only when more than one upload
succeeded (the first success is the featured image, the rest are
embedded). -/
def imagesHtmlOf (imgs : List UploadedImage) : String :=
  if imgs.length > 1 then
    "<div class=\"article-images\" style=\"margin: 30px 0; display: flex; flex-direction: column; gap: 20px;\">" ++
      figuresFrom (imgs.drop 1) 1 ++ "</div>"
  else ""

/-- The full post body: rendered article, gallery block, and the
attribution line linking the original tweet. -/
def fullContentOf (articleHtml imagesHtml : String) (tweet : Tweet) : String :=
  articleHtml ++ "\n" ++ imagesHtml ++
    "\n<hr>\n<p><em>Source: <a href=\"https://twitter.com/" ++ tweet.username ++
    "/status/" ++ tweet.tweet_id ++ "\" target=\"_blank\">Original Tweet</a></em></p>"

/-- The store update and final response after a successful (201) post
creation: record `updatePublished(id, language, true, publishData.link)`
and answer with the post id, link and message, or 500 when the store
update fails (the noted inconsistency: the remote post already exists). -/
def publishUpdate (env : Env) (id : Int) (language : JVal) (publishData : JVal)
    (eff : Effects) : Response × Effects :=
  let link := propOf publishData "link"
  let postId := propOf publishData "id"
  let effD : Effects := { eff with updates := eff.updates ++ [⟨id, language, true, link⟩] }
  if !env.updateOk then
    (mkErr 500 "Failed to update tweet status", effD)
  else
    (⟨200, .obj [("success", .bool true), ("post_id", postId), ("link", link),
       ("message", .str ("Article published successfully to " ++
         jsTemplate language ++ " WordPress site"))]⟩, effD)

/-- The post-creation call and its aftermath: send `postData` to the
posts endpoint; a thrown fetch error goes to the top-level catch.  On a
non-201 status, `response.json()` is tried first: if it succeeds, the
parsed upstream error body is surfaced verbatim under `details` with the
upstream status (no retry, no store update); if it fails, the response
body has already been consumed by that attempt, so the fallback
`await response.text()` inside the catch itself throws a TypeError that
escapes to the top-level catch — the handler answers 500, never the
fallback `{ error: text }` object the source appears to build.  A 201
leads to the store update. -/
def submitPost (env : Env) (id : Int) (language : JVal) (postData : PostData)
    (eff : Effects) : Response × Effects :=
  let effP : Effects := { eff with postCalls := eff.postCalls + 1, postBody := some postData }
  match env.postResp with
  | .exn m => (catchResp m, effP)
  | .resp st =>
    if st ≠ 201 then
      match env.postErrJson with
      | .ok v =>
        (⟨st, .obj [("error", .str ("WordPress API error: " ++ toString st)),
           ("details", v)]⟩, effP)
      | .error _ => (catchResp "TypeError", effP)
    else
      match env.postOkJson with
      | .error m => (catchResp m, effP)
      | .ok publishData =>
        if isNullish publishData then (catchResp "TypeError", effP)
        else publishUpdate env id language publishData effP

/-- Credential loading, the sequential image-upload loop, featured-image
choice, HTML composition and post submission: the publish path after
article validation. -/
def composePost (env : Env) (id : Int) (language status title articleBody contentBody : JVal)
    (tweet : Tweet) : Response × Effects :=
  let mediaUrls := mediaUrlsOf env tweet
  let wpUrl := settings_get env.settings
    (if jstrEq language "english" then "wordpressEnglishUrl" else "wordpressFrenchUrl")
  let wpUsername := settings_get env.settings
    (if jstrEq language "english" then "wordpressEnglishUsername" else "wordpressFrenchUsername")
  let wpPassword := settings_get env.settings
    (if jstrEq language "english" then "wordpressEnglishPassword" else "wordpressFrenchPassword")
  if !truthy wpUrl || !truthy wpUsername || !truthy wpPassword then
    (mkErr 500 ("WordPress credentials for " ++ jsTemplate language ++
      " not configured. Please set them in Settings."), Effects.empty)
  else
    let uploadedImages := uploadedImagesOf env mediaUrls.length
    let effU : Effects := { Effects.empty with uploadCalls := mediaUrls }
    let featuredMediaId : JVal :=
      match uploadedImages with
      | [] => .null
      | img :: _ => img.mediaId
    let articleHtml := env.marked (jsOr articleBody (jsOr contentBody (.str "")))
    let imagesHtml := imagesHtmlOf uploadedImages
    let fullContent := fullContentOf articleHtml imagesHtml tweet
    let postData : PostData :=
      { title := title, content := fullContent,
        status := jsOr status (.str "publish"),
        featured_media := if truthy featuredMediaId then some featuredMediaId else none }
    submitPost env id language postData effU

/-- Article selection and decoding, the start of the publish path: pick
the language column, 400 when absent, parse it when it is text (parse
failure → 400 "Invalid article data format"), require a truthy title
and body, then hand over to `composePost`. -/
def publishArticle (env : Env) (id : Int) (language status : JVal) (tweet : Tweet) :
    Response × Effects :=
  let articleContent :=
    if jstrEq language "english" then tweet.article_english else tweet.article_french
  if !truthy articleContent then
    (mkErr 400 ("Article not generated for " ++ jsTemplate language ++ " language"),
      Effects.empty)
  else
    match (match articleContent with
           | .str s => env.parse s
           | v => .ok v) with
    | .error _ => (mkErr 400 "Invalid article data format", Effects.empty)
    | .ok articleData =>
      if isNullish articleData then (catchResp "TypeError", Effects.empty)
      else
        let title := propOf articleData "title"
        let articleBody := propOf articleData "article"
        let contentBody := propOf articleData "content"
        if !truthy title || (!truthy articleBody && !truthy contentBody) then
          (mkErr 400 "Invalid article format: missing title or content", Effects.empty)
        else composePost env id language status title articleBody contentBody tweet

/-- The publish route handler
(`POST app/api/tweets/[id]/publish/route.ts`), returning the HTTP
response together with the effects performed.  It mirrors the source:
parse the id, read the JSON body (a malformed body throws into the
top-level catch), validate id and language, look the tweet up in the
first 10000 rows, take the unpublish branch on a falsy `published`, and
otherwise run the publish pipeline (`publishArticle` → `composePost` →
`submitPost` → `publishUpdate`), which in the source is the rest of the
same function body. -/
def POST (req : Req) (env : Env) : Response × Effects :=
  match req.body with
  | .error m => (catchResp m, Effects.empty)
  | .ok bodyVal =>
    if isNullish bodyVal then (catchResp "TypeError", Effects.empty)
    else
      let language := propOf bodyVal "language"
      let published := propOf bodyVal "published"
      let status := propOf bodyVal "status"
      match parseIntJS req.paramsId with
      | none => (mkErr 400 "Invalid tweet ID", Effects.empty)
      | some id =>
        if !jstrEq language "english" && !jstrEq language "french" then
          (mkErr 400 "Invalid language. Must be \"english\" or \"french\"", Effects.empty)
        else
          let allTweets := tweets_getAll env.store 10000 0
          match allTweets.find? (fun t => t.id == id) with
          | none => (mkErr 404 "Tweet not found", Effects.empty)
          | some tweet =>
            if !truthy published then
              let upd : List UpdateCall := [⟨id, language, false, .null⟩]
              if !env.updateOk then
                (mkErr 500 "Failed to update tweet status", { Effects.empty with updates := upd })
              else
                (⟨200, .obj [("success", .bool true)]⟩, { Effects.empty with updates := upd })
            else publishArticle env id language status tweet

/-- Modelled from the spec: `tweets.getCount()` of `@/lib/db` (not in
src) returns the current row count of the store. -/
def tweets_getCount (store : List Tweet) : Nat := store.length

/-- Modelled from the spec: `tweets.deleteAll()` of `@/lib/db` (not in
src) deletes all rows and returns the number of rows deleted. -/
def tweets_deleteAll (store : List Tweet) : Nat × List Tweet :=
  (store.length, [])

/-- The bulk-delete route handler (`DELETE`): read the row count, delete
all rows, and answer with the deleted count; `storeExn = some m` models a
store operation throwing, which the catch turns into a 500 (leaving
whatever store state the failed operation left — the claim only
constrains the response). -/
def DELETE (store : List Tweet) (storeExn : Option String) : Response × List Tweet :=
  match storeExn with
  | some m =>
    (⟨500, .obj [("error", .str "Failed to delete tweets"), ("message", .str m)]⟩, store)
  | none =>
    let countBefore := tweets_getCount store
    let d := tweets_deleteAll store
    (⟨200, .obj [("success", .bool true), ("deletedCount", .num d.1),
       ("message", .str ("Successfully deleted " ++ toString d.1 ++ " tweet(s)"))]⟩, d.2)

/-! ### Concrete fixtures used by witnesses and counterexamples -/

/-- A tweet whose English article is already structured and which has no
media. -/
def sampleTweet : Tweet :=
  { id := 7, username := "alice", tweet_id := "123",
    article_english := .obj [("title", .str "T"), ("article", .str "Body")],
    article_french := .null,
    media_urls := .null }

/-- An upload environment in which the media upload succeeds with id 11. -/
def okUpload : UploadEnv :=
  { imgFetch := .resp true 200, midOk := true, upFetch := .resp false 201,
    mediaJson := .ok { id := .num 11, source_url := .str "https://wp.example/a.jpg",
                       guid_rendered := .undefined, link := .undefined } }

/-- An upload environment in which the image download fails. -/
def failUpload : UploadEnv :=
  { imgFetch := .resp false 404, midOk := true, upFetch := .resp false 500,
    mediaJson := .error "no body" }

/-- A base request environment: one stored tweet, credentials configured,
uploads failing, post creation succeeding with a link. -/
def baseEnv : Env :=
  { store := [sampleTweet],
    parse := fun _ => .error "Unexpected token",
    settings := fun _ => some "configured",
    uploadEnvs := fun _ => failUpload,
    postResp := .resp 201,
    postErrJson := .error "no json",
    postOkJson := .ok (.obj [("id", .num 55), ("link", .str "https://wp.example/post")]),
    updateOk := true,
    marked := fun _ => "<p>html</p>" }

/-! ### Claims -/

/-- C6: bulk delete on a store of N rows answers 200 with
`success: true`, `deletedCount = N` and the matching message and leaves
the store empty, so an immediately repeated call answers
`deletedCount = 0`; a throwing store operation yields a 500 with an
error message. -/
theorem delete_all_count_and_empty (store : List Tweet) (m : String) :
    (DELETE store none).1 =
      ⟨200, .obj [("success", .bool true), ("deletedCount", .num store.length),
        ("message", .str ("Successfully deleted " ++ toString store.length ++ " tweet(s)"))]⟩
    ∧ (DELETE store none).2 = []
    ∧ (DELETE (DELETE store none).2 none).1.body =
        .obj [("success", .bool true), ("deletedCount", .num 0),
          ("message", .str "Successfully deleted 0 tweet(s)")]
    ∧ (DELETE store (some m)).1.status = 500
    ∧ propOf (DELETE store (some m)).1.body "error" = .str "Failed to delete tweets" := by
  refine ⟨rfl, rfl, ?_, rfl, rfl⟩
  have h : (DELETE store none).2 = [] := rfl
  rw [h]
  rfl

/-- C4 counterexample: with the non-numeric path id "abc" and a
malformed request body, the handler answers 500, not 400 — the source
awaits `request.json()` before the `isNaN(id)` check, so the parse error
reaches the top-level catch first. -/
theorem invalid_id_malformed_body_gives_500 :
    (POST { paramsId := "abc", body := .error "Unexpected token" } baseEnv).1.status = 500
    ∧ ¬ (500 : Nat) = 400 :=
  ⟨rfl, by decide⟩

/-- C4 (amended): for every request whose path id does not parse to an
integer and whose body parses to a JSON value on which destructuring
succeeds (any non-nullish value), the handler returns
400 "Invalid tweet ID" regardless of the other body fields, with no
side effects; a malformed (or null) body instead reaches the top-level
catch and yields 500. -/
theorem invalid_id_returns_400 (req : Req) (env : Env) (b : JVal)
    (hbody : req.body = .ok b) (hnn : isNullish b = false)
    (hid : parseIntJS req.paramsId = none) :
    POST req env = (mkErr 400 "Invalid tweet ID", Effects.empty) := by
  unfold POST
  rw [hbody]
  simp [hnn, hid]

/-- Witness for C4 (amended): a request with id "abc" and a body whose
language and published fields are themselves invalid still gets 400. -/
theorem invalid_id_returns_400_witness :
    POST { paramsId := "abc",
           body := .ok (.obj [("language", .num 3), ("published", .str "x")]) } baseEnv
      = (mkErr 400 "Invalid tweet ID", Effects.empty) :=
  invalid_id_returns_400 _ baseEnv (.obj [("language", .num 3), ("published", .str "x")]) rfl rfl rfl

/-- C3: a request with `published = false` on an existing tweet with a
valid language makes no outbound WordPress call (no upload attempts, no
post-creation call), calls `updatePublished(id, language, false, null)`
(clearing the stored link), and answers `{success: true}` when the store
update succeeds and 500 when it fails. -/
theorem unpublish_clears_link_no_wp_call (req : Req) (env : Env) (b : JVal) (id : Int)
    (tw : Tweet)
    (hbody : req.body = .ok b) (hnn : isNullish b = false)
    (hid : parseIntJS req.paramsId = some id)
    (hlang : (jstrEq (propOf b "language") "english" || jstrEq (propOf b "language") "french") = true)
    (hfind : (tweets_getAll env.store 10000 0).find? (fun t => t.id == id) = some tw)
    (hpub : propOf b "published" = .bool false) :
    (POST req env).2 = { Effects.empty with updates := [⟨id, propOf b "language", false, .null⟩] }
    ∧ (POST req env).1 = (if env.updateOk then ⟨200, .obj [("success", .bool true)]⟩
        else mkErr 500 "Failed to update tweet status") := by
  unfold POST
  rw [hbody]
  rcases Bool.or_eq_true _ _ |>.mp hlang with h | h <;>
    cases hup : env.updateOk <;>
      simp [hnn, hid, h, hfind, hpub, hup, truthy]

/-- Witness for C3: unpublishing the stored English article of tweet 7. -/
theorem unpublish_clears_link_no_wp_call_witness :
    (POST { paramsId := "7",
            body := .ok (.obj [("language", .str "english"), ("published", .bool false)]) }
        baseEnv).2
      = { Effects.empty with updates := [⟨7, .str "english", false, .null⟩] } :=
  (unpublish_clears_link_no_wp_call
    { paramsId := "7",
      body := .ok (.obj [("language", .str "english"), ("published", .bool false)]) }
    baseEnv
    (.obj [("language", .str "english"), ("published", .bool false)]) 7 sampleTweet
    rfl rfl rfl rfl rfl rfl).1

/-- C10: the unpublish branch is selected by JS truthiness — for every
falsy `published` value (false, 0, the empty string, null, or a body
without the field, which yields undefined), the handler records
`updatePublished(id, language, false, null)` and performs no outbound
WordPress call; omitting `published` is an unpublish, not an error. -/
theorem falsy_published_unpublishes (req : Req) (env : Env) (b : JVal) (id : Int)
    (tw : Tweet)
    (hbody : req.body = .ok b) (hnn : isNullish b = false)
    (hid : parseIntJS req.paramsId = some id)
    (hlang : (jstrEq (propOf b "language") "english" || jstrEq (propOf b "language") "french") = true)
    (hfind : (tweets_getAll env.store 10000 0).find? (fun t => t.id == id) = some tw)
    (hpub : truthy (propOf b "published") = false) :
    (POST req env).2 = { Effects.empty with updates := [⟨id, propOf b "language", false, .null⟩] }
    ∧ (POST req env).2.uploadCalls = [] ∧ (POST req env).2.postCalls = 0 := by
  unfold POST
  rw [hbody]
  rcases Bool.or_eq_true _ _ |>.mp hlang with h | h <;>
    cases hup : env.updateOk <;>
      simp [hnn, hid, h, hfind, hpub, hup, Effects.empty]

/-- Witness for C10: a body that omits `published` entirely unpublishes
tweet 7 and makes no WordPress call. -/
theorem falsy_published_unpublishes_witness :
    (POST { paramsId := "7", body := .ok (.obj [("language", .str "english")]) } baseEnv).2
      = { Effects.empty with updates := [⟨7, .str "english", false, .null⟩] } :=
  (falsy_published_unpublishes
    { paramsId := "7", body := .ok (.obj [("language", .str "english")]) }
    baseEnv (.obj [("language", .str "english")]) 7 sampleTweet
    rfl rfl rfl rfl rfl rfl).1

set_option maxHeartbeats 1000000 in
/-- C1: for every request and environment, if the handler records an
`updatePublished` call with `published = true`, then the WordPress
post-creation call was made (exactly once) and returned status 201; on
every earlier failure the handler returns without such a call, leaving
the publish state unchanged. -/
theorem publish_flag_true_only_after_201 (req : Req) (env : Env) (u : UpdateCall)
    (hu : u ∈ (POST req env).2.updates) (hpub : u.published = true) :
    env.postResp = .resp 201 ∧ (POST req env).2.postCalls = 1 := by
  rcases hP : POST req env with ⟨resp, eff⟩
  rw [hP] at hu
  dsimp only at hu ⊢
  unfold POST at hP
  repeat' (first
    | split at hP
    | simp only [] at hP
    | unfold publishArticle at hP
    | unfold composePost at hP
    | unfold submitPost at hP
    | unfold publishUpdate at hP)
  all_goals (injection hP with h1 h2; subst h1; subst h2; simp_all [Effects.empty])

/-- A publish request for tweet 7 in English. -/
def publishReq : Req :=
  { paramsId := "7",
    body := .ok (.obj [("language", .str "english"), ("published", .bool true)]) }

/-- Witness for C1: on the concrete success path the recorded
`updatePublished(7, english, true, link)` call comes with a 201 from the
single post-creation call. -/
theorem publish_flag_true_only_after_201_witness :
    baseEnv.postResp = PostOutcome.resp 201 ∧ (POST publishReq baseEnv).2.postCalls = 1 :=
  publish_flag_true_only_after_201 publishReq baseEnv
    ⟨7, .str "english", true, .str "https://wp.example/post"⟩
    (by rw [show (POST publishReq baseEnv).2.updates
          = [⟨7, .str "english", true, .str "https://wp.example/post"⟩] from rfl]
        exact List.Mem.head _)
    rfl

/-- Like `baseEnv` but WordPress answers 403 to the post creation, with
an error body that is not valid JSON. -/
def env403 : Env := { baseEnv with postResp := .resp 403 }

/-- C2 counterexample: with a 403 upstream response whose error body is
not valid JSON, the handler does not surface the 403 verbatim — the
failed `response.json()` has consumed the body, the fallback
`await response.text()` throws, and the handler answers 500 from the
top-level catch. -/
theorem non201_bad_error_body_gives_500 :
    (POST publishReq env403).2.postCalls = 1
    ∧ env403.postResp = PostOutcome.resp 403
    ∧ (POST publishReq env403).1.status = 500
    ∧ ¬ (500 : Nat) = 403 :=
  ⟨rfl, rfl, rfl, by decide⟩

set_option maxHeartbeats 1000000 in
/-- C2 (amended): whenever the handler makes the post-creation call and
the upstream status is not 201, no `updatePublished` call is recorded
and the call is made exactly once (no retry); the response carries
exactly the upstream status, the message naming it, and the parsed
upstream error body under `details` when that body is valid JSON —
otherwise `response.json()` has consumed the body, the fallback
`response.text()` throws, and the handler answers 500 from the
top-level catch. -/
theorem non201_surfaced_verbatim (req : Req) (env : Env) (st : Nat)
    (hcall : (POST req env).2.postCalls ≠ 0)
    (hresp : env.postResp = .resp st) (hst : st ≠ 201) :
    (POST req env).1 = (match env.postErrJson with
      | .ok v => ⟨st, .obj [("error", .str ("WordPress API error: " ++ toString st)),
          ("details", v)]⟩
      | .error _ => catchResp "TypeError")
    ∧ (POST req env).2.updates = [] ∧ (POST req env).2.postCalls = 1 := by
  rcases hP : POST req env with ⟨resp, eff⟩
  rw [hP] at hcall
  dsimp only at hcall ⊢
  unfold POST at hP
  repeat' (first
    | split at hP
    | simp only [] at hP
    | unfold publishArticle at hP
    | unfold composePost at hP
    | unfold submitPost at hP
    | unfold publishUpdate at hP)
  all_goals (injection hP with h1 h2; subst h1; subst h2; simp_all [Effects.empty])

/-- Like `baseEnv` but WordPress answers 403 to the post creation with a
JSON error body. -/
def env403json : Env :=
  { baseEnv with
    postResp := .resp 403,
    postErrJson := .ok (.obj [("code", .str "rest_forbidden")]) }

/-- Witness for C2 (amended): a 403 from WordPress whose error body
parses as JSON is passed through with that body under `details`, without
a store update and with a single call. -/
theorem non201_surfaced_verbatim_witness :
    (POST publishReq env403json).1 = (match env403json.postErrJson with
      | .ok v => ⟨403, .obj [("error", .str ("WordPress API error: " ++ toString 403)),
          ("details", v)]⟩
      | .error _ => catchResp "TypeError")
    ∧ (POST publishReq env403json).2.updates = []
    ∧ (POST publishReq env403json).2.postCalls = 1 :=
  non201_surfaced_verbatim publishReq env403json 403
    (by rw [show (POST publishReq env403json).2.postCalls = 1 from rfl]; exact one_ne_zero)
    rfl (by decide)

/-- C9: tweet existence is decided by fetching the first 10000 rows via
`getAll(10000, 0)` and searching in memory — a tweet whose id only
occurs beyond the first 10000 rows is treated as not found and yields
404 (with no side effects). -/
theorem lookup_limited_to_first_10000 (req : Req) (env : Env) (b : JVal) (id : Int)
    (t0 : Tweet)
    (hbody : req.body = .ok b) (hnn : isNullish b = false)
    (hid : parseIntJS req.paramsId = some id)
    (hlang : (jstrEq (propOf b "language") "english" || jstrEq (propOf b "language") "french") = true)
    (hmem : t0 ∈ env.store) (ht0 : t0.id = id)
    (hfirst : ∀ t ∈ env.store.take 10000, t.id ≠ id) :
    POST req env = (mkErr 404 "Tweet not found", Effects.empty) := by
  have hfind : (tweets_getAll env.store 10000 0).find? (fun t => t.id == id) = none := by
    rw [tweets_getAll, List.drop_zero, List.find?_eq_none]
    intro x hx
    simpa using hfirst x hx
  unfold POST
  rw [hbody]
  rcases Bool.or_eq_true _ _ |>.mp hlang with h | h <;> simp [hnn, hid, h, hfind]

/-- A filler tweet whose id never matches the looked-up one. -/
def dummyTweet : Tweet :=
  { id := 0, username := "u", tweet_id := "0",
    article_english := .null, article_french := .null, media_urls := .null }

/-- A store of 10000 filler rows followed by tweet 7. -/
def bigStoreEnv : Env :=
  { baseEnv with store := List.replicate 10000 dummyTweet ++ [{ dummyTweet with id := 7 }] }

/-- Witness for C9: tweet 7 sits at position 10000 of the store (row
10001), so publishing it answers 404. -/
theorem lookup_limited_to_first_10000_witness :
    POST publishReq bigStoreEnv = (mkErr 404 "Tweet not found", Effects.empty) :=
  lookup_limited_to_first_10000 publishReq bigStoreEnv
    (.obj [("language", .str "english"), ("published", .bool true)]) 7
    { dummyTweet with id := 7 }
    rfl rfl rfl rfl
    (by
      rw [show bigStoreEnv.store
            = List.replicate 10000 dummyTweet ++ [{ dummyTweet with id := 7 }] from rfl]
      exact List.mem_append_right _ (List.mem_singleton.mpr rfl))
    rfl
    (by
      intro t ht
      have hlen : (List.replicate 10000 dummyTweet).length = 10000 :=
        List.length_replicate 10000 dummyTweet
      rw [show bigStoreEnv.store
            = List.replicate 10000 dummyTweet ++ [{ dummyTweet with id := 7 }] from rfl,
          List.take_left' hlen] at ht
      have := List.eq_of_mem_replicate ht
      subst this
      decide)

/-- C8: the image uploader never raises to its caller.  Every thrown
error inside the body (network error, timeout, bad URL, bad JSON) is
caught and becomes null, and a non-null result is produced only by an ok
image download followed by a 201 media-endpoint response whose body
carries a truthy id and a truthy `source_url || guid?.rendered || link`;
every other outcome is the "no result" value, which the orchestrator
treats as skipping the image. -/
theorem upload_never_raises (env : UploadEnv) :
    (∀ m, uploadBody env = .error m → uploadImageToWordPress env = none)
    ∧ (∀ r, uploadImageToWordPress env = some r →
        ∃ s mediaData, env.imgFetch = .resp true s
          ∧ env.midOk = true
          ∧ (∃ okU, env.upFetch = .resp okU 201)
          ∧ env.mediaJson = .ok mediaData
          ∧ truthy mediaData.id = true
          ∧ truthy (jsOr mediaData.source_url (jsOr mediaData.guid_rendered mediaData.link)) = true
          ∧ r = ⟨mediaData.id,
                 jsOr mediaData.source_url (jsOr mediaData.guid_rendered mediaData.link)⟩) := by
  constructor
  · intro m h
    unfold uploadImageToWordPress
    rw [h]
  · intro r h
    unfold uploadImageToWordPress at h
    rcases hB : uploadBody env with m | r0
    · rw [hB] at h
      exact absurd h (by simp)
    · rw [hB] at h
      dsimp only at h
      subst h
      unfold uploadBody at hB
      repeat' (first | split at hB | simp only [] at hB)
      all_goals simp_all

/-- An upload environment whose image download throws (timeout). -/
def exnUpload : UploadEnv :=
  { imgFetch := .exn "timeout", midOk := true, upFetch := .resp true 201,
    mediaJson := .error "no body" }

/-- Witness for C8: a thrown download error yields null, and a concrete
successful upload (`okUpload`) satisfies the success characterization. -/
theorem upload_never_raises_witness :
    uploadImageToWordPress exnUpload = none
    ∧ (∃ s mediaData, okUpload.imgFetch = .resp true s
        ∧ okUpload.midOk = true
        ∧ (∃ okU, okUpload.upFetch = .resp okU 201)
        ∧ okUpload.mediaJson = .ok mediaData
        ∧ truthy mediaData.id = true
        ∧ truthy (jsOr mediaData.source_url (jsOr mediaData.guid_rendered mediaData.link)) = true
        ∧ (⟨.num 11, .str "https://wp.example/a.jpg"⟩ : UploadedImage)
            = ⟨mediaData.id,
               jsOr mediaData.source_url (jsOr mediaData.guid_rendered mediaData.link)⟩) :=
  ⟨(upload_never_raises exnUpload).1 "timeout" rfl,
   (upload_never_raises okUpload).2 ⟨.num 11, .str "https://wp.example/a.jpg"⟩ rfl⟩

/-- If a string value strictly equals "french" it does not equal
"english". -/
lemma jstrEq_french_not_english (v : JVal) (h : jstrEq v "french" = true) :
    jstrEq v "english" = false := by
  cases v <;> simp_all [jstrEq]

/-- Path lemma: when id, language, tweet lookup, a truthy `published`,
article decoding and the credentials all pass, `POST` is exactly the
image-upload/composition/submission tail, with the decoded media URLs as
the attempted uploads and the first successful upload as featured
image. -/
lemma POST_reaches_submit (req : Req) (env : Env) (b : JVal) (id : Int) (tw : Tweet)
    (articleData articleParsed : JVal)
    (hbody : req.body = .ok b) (hnn : isNullish b = false)
    (hid : parseIntJS req.paramsId = some id)
    (hlang : (jstrEq (propOf b "language") "english" || jstrEq (propOf b "language") "french") = true)
    (hfind : (tweets_getAll env.store 10000 0).find? (fun t => t.id == id) = some tw)
    (hpub : truthy (propOf b "published") = true)
    (hart : (if jstrEq (propOf b "language") "english" then tw.article_english
             else tw.article_french) = articleData)
    (htr : truthy articleData = true)
    (hparse : (match articleData with
               | .str s => env.parse s
               | v => .ok v) = .ok articleParsed)
    (hnnP : isNullish articleParsed = false)
    (htitle : truthy (propOf articleParsed "title") = true)
    (hbodyOk : (!truthy (propOf articleParsed "article")
                && !truthy (propOf articleParsed "content")) = false)
    (hset : ∀ k, truthy (settings_get env.settings k) = true) :
    POST req env =
      (let uploadedImages := uploadedImagesOf env (mediaUrlsOf env tw).length
       let featuredMediaId : JVal :=
         match uploadedImages with
         | [] => .null
         | img :: _ => img.mediaId
       submitPost env id (propOf b "language")
         { title := propOf articleParsed "title",
           content := fullContentOf
             (env.marked (jsOr (propOf articleParsed "article")
               (jsOr (propOf articleParsed "content") (.str ""))))
             (imagesHtmlOf uploadedImages) tw,
           status := jsOr (propOf b "status") (.str "publish"),
           featured_media :=
             if truthy featuredMediaId then some featuredMediaId else none }
         { Effects.empty with uploadCalls := mediaUrlsOf env tw }) := by
  unfold POST publishArticle composePost
  rw [hbody]
  rcases Bool.or_eq_true _ _ |>.mp hlang with h | h
  · rw [h] at hart
    simp only [if_true] at hart
    simp [hnn, hid, h, hfind, hpub, hart, htr, hparse, hnnP, htitle, hbodyOk, hset]
  · have h2 : jstrEq (propOf b "language") "english" = false :=
      jstrEq_french_not_english _ h
    rw [h2] at hart
    simp only [Bool.false_eq_true, if_false] at hart
    simp [hnn, hid, h, h2, hfind, hpub, hart, htr, hparse, hnnP, htitle, hbodyOk, hset]

/-- The submission tail always records the post body it sent, increments
the post-call count once, and keeps the upload attempts. -/
lemma submitPost_eff (env : Env) (id : Int) (language : JVal) (pd : PostData)
    (eff : Effects) :
    (submitPost env id language pd eff).2.postBody = some pd
    ∧ (submitPost env id language pd eff).2.postCalls = eff.postCalls + 1
    ∧ (submitPost env id language pd eff).2.uploadCalls = eff.uploadCalls := by
  unfold submitPost publishUpdate
  repeat' split
  all_goals simp

set_option maxHeartbeats 1000000 in
/-- C5: on the publish path, one upload is attempted per media URL, in
input order; with three media URLs where exactly the second upload
fails, the successful uploads are the first and third in order, the
media id of the first is sent as `featured_media`, and the inline gallery
appended to the body consists of exactly one figure — the third image
(the featured first is skipped). -/
theorem media_pipeline_order_featured_gallery (req : Req) (env : Env) (b : JVal)
    (id : Int) (tw : Tweet) (articleData articleParsed : JVal) (u1 u2 u3 : JVal)
    (a c : UploadedImage)
    (hbody : req.body = .ok b) (hnn : isNullish b = false)
    (hid : parseIntJS req.paramsId = some id)
    (hlang : (jstrEq (propOf b "language") "english" || jstrEq (propOf b "language") "french") = true)
    (hfind : (tweets_getAll env.store 10000 0).find? (fun t => t.id == id) = some tw)
    (hpub : truthy (propOf b "published") = true)
    (hart : (if jstrEq (propOf b "language") "english" then tw.article_english
             else tw.article_french) = articleData)
    (htr : truthy articleData = true)
    (hparse : (match articleData with
               | .str s => env.parse s
               | v => .ok v) = .ok articleParsed)
    (hnnP : isNullish articleParsed = false)
    (htitle : truthy (propOf articleParsed "title") = true)
    (hbodyOk : (!truthy (propOf articleParsed "article")
                && !truthy (propOf articleParsed "content")) = false)
    (hset : ∀ k, truthy (settings_get env.settings k) = true)
    (hmedia : mediaUrlsOf env tw = [u1, u2, u3])
    (hup0 : uploadImageToWordPress (env.uploadEnvs 0) = some a)
    (hup1 : uploadImageToWordPress (env.uploadEnvs 1) = none)
    (hup2 : uploadImageToWordPress (env.uploadEnvs 2) = some c)
    (hta : truthy a.mediaId = true) :
    uploadedImagesOf env 3 = [a, c]
    ∧ (POST req env).2.uploadCalls = [u1, u2, u3]
    ∧ (∃ pd, (POST req env).2.postBody = some pd
        ∧ pd.featured_media = some a.mediaId
        ∧ pd.content = fullContentOf
            (env.marked (jsOr (propOf articleParsed "article")
              (jsOr (propOf articleParsed "content") (.str ""))))
            (imagesHtmlOf [a, c]) tw)
    ∧ imagesHtmlOf [a, c]
        = "<div class=\"article-images\" style=\"margin: 30px 0; display: flex; flex-direction: column; gap: 20px;\">"
          ++ figureHtml c.url 1 ++ "</div>" := by
  have hImgs : uploadedImagesOf env 3 = [a, c] := by
    simp [uploadedImagesOf, List.range_succ, hup0, hup1, hup2]
  have hPP := POST_reaches_submit req env b id tw articleData articleParsed
    hbody hnn hid hlang hfind hpub hart htr hparse hnnP htitle hbodyOk hset
  rw [hmedia] at hPP
  simp only [List.length_cons, List.length_nil, Nat.zero_add, Nat.reduceAdd, hImgs, hta,
    if_true] at hPP
  refine ⟨hImgs, ?_, ?_, ?_⟩
  · rw [hPP]
    rw [(submitPost_eff _ _ _ _ _).2.2]
  · refine ⟨{ title := propOf articleParsed "title",
              content := fullContentOf
                (env.marked (jsOr (propOf articleParsed "article")
                  (jsOr (propOf articleParsed "content") (.str ""))))
                (imagesHtmlOf [a, c]) tw,
              status := jsOr (propOf b "status") (.str "publish"),
              featured_media := some a.mediaId }, ?_, rfl, rfl⟩
    rw [hPP]
    exact (submitPost_eff _ _ _ _ _).1
  · simp [imagesHtmlOf, figuresFrom, String.append_empty]

/-- Upload environment for the third media URL, succeeding with id 33. -/
def okUploadC : UploadEnv :=
  { imgFetch := .resp true 200, midOk := true, upFetch := .resp false 201,
    mediaJson := .ok { id := .num 33, source_url := .str "https://wp.example/c.jpg",
                       guid_rendered := .undefined, link := .undefined } }

/-- A tweet with three media URLs stored as JSON text. -/
def mediaTweet : Tweet := { sampleTweet with media_urls := .str "[\"u1\",\"u2\",\"u3\"]" }

/-- Environment for the three-media scenario, where the second upload
fails. -/
def mediaEnv : Env :=
  { baseEnv with
    store := [mediaTweet],
    parse := fun s =>
      if s = "[\"u1\",\"u2\",\"u3\"]" then .ok (.arr [.str "u1", .str "u2", .str "u3"])
      else .error "bad",
    uploadEnvs := fun i => if i = 0 then okUpload else if i = 1 then failUpload else okUploadC }

/-- Witness for C5: publishing the three-media tweet attempts all three
uploads in order, features image 11 (first success) and embeds a gallery
holding only image 33 (the third URL; the second upload failed). -/
theorem media_pipeline_order_featured_gallery_witness :
    uploadedImagesOf mediaEnv 3
      = [⟨.num 11, .str "https://wp.example/a.jpg"⟩, ⟨.num 33, .str "https://wp.example/c.jpg"⟩]
    ∧ (POST publishReq mediaEnv).2.uploadCalls = [.str "u1", .str "u2", .str "u3"]
    ∧ (∃ pd, (POST publishReq mediaEnv).2.postBody = some pd
        ∧ pd.featured_media = some (.num 11)
        ∧ pd.content = fullContentOf
            (mediaEnv.marked (jsOr (propOf (.obj [("title", .str "T"), ("article", .str "Body")]) "article")
              (jsOr (propOf (.obj [("title", .str "T"), ("article", .str "Body")]) "content") (.str ""))))
            (imagesHtmlOf [⟨.num 11, .str "https://wp.example/a.jpg"⟩,
              ⟨.num 33, .str "https://wp.example/c.jpg"⟩]) mediaTweet)
    ∧ imagesHtmlOf [⟨.num 11, .str "https://wp.example/a.jpg"⟩,
        ⟨.num 33, .str "https://wp.example/c.jpg"⟩]
      = "<div class=\"article-images\" style=\"margin: 30px 0; display: flex; flex-direction: column; gap: 20px;\">"
        ++ figureHtml (.str "https://wp.example/c.jpg") 1 ++ "</div>" :=
  media_pipeline_order_featured_gallery publishReq mediaEnv
    (.obj [("language", .str "english"), ("published", .bool true)]) 7 mediaTweet
    (.obj [("title", .str "T"), ("article", .str "Body")])
    (.obj [("title", .str "T"), ("article", .str "Body")])
    (.str "u1") (.str "u2") (.str "u3")
    ⟨.num 11, .str "https://wp.example/a.jpg"⟩ ⟨.num 33, .str "https://wp.example/c.jpg"⟩
    rfl rfl rfl rfl rfl rfl rfl rfl rfl rfl rfl rfl (fun _ => rfl) rfl rfl rfl rfl rfl

/-- A tweet whose media_urls decodes to an array with one valid and one
invalid entry. -/
def mixedTweet : Tweet := { sampleTweet with media_urls := .str "[\"a\",5]" }

/-- Environment holding `mixedTweet`, whose media text parses to
`["a", 5]`. -/
def mixedEnv : Env :=
  { baseEnv with
    store := [mixedTweet],
    parse := fun s => if s = "[\"a\",5]" then .ok (.arr [.str "a", .num 5]) else .error "bad" }

/-- C7 counterexample: for the tweet whose media_urls decodes to
`["a", 5]` — the second entry being neither a string nor an object
carrying mediaUrl/url — the pipeline does not proceed as if the tweet
had no media: it attempts the upload of "a", keeping the decodable
entries. -/
theorem media_entry_error_keeps_other_urls :
    (POST publishReq mixedEnv).2.uploadCalls = [.str "a"]
    ∧ ¬ (POST publishReq mixedEnv).2.uploadCalls = [] := by
  have h : (POST publishReq mixedEnv).2.uploadCalls = [JVal.str "a"] := rfl
  refine ⟨h, fun hnil => ?_⟩
  rw [h] at hnil
  exact List.noConfusion hnil

/-- Path lemma: if the selected article column holds a truthy value
whose JSON decoding fails, the handler answers
400 "Invalid article data format" with no side effects. -/
lemma article_parse_error_400 (req : Req) (env : Env) (b : JVal) (id : Int) (tw : Tweet)
    (articleData : JVal) (e : String)
    (hbody : req.body = .ok b) (hnn : isNullish b = false)
    (hid : parseIntJS req.paramsId = some id)
    (hlang : (jstrEq (propOf b "language") "english" || jstrEq (propOf b "language") "french") = true)
    (hfind : (tweets_getAll env.store 10000 0).find? (fun t => t.id == id) = some tw)
    (hpub : truthy (propOf b "published") = true)
    (hart : (if jstrEq (propOf b "language") "english" then tw.article_english
             else tw.article_french) = articleData)
    (htr : truthy articleData = true)
    (hparseE : (match articleData with
                | .str s => env.parse s
                | v => .ok v) = .error e) :
    POST req env = (mkErr 400 "Invalid article data format", Effects.empty) := by
  unfold POST publishArticle
  rw [hbody]
  rcases Bool.or_eq_true _ _ |>.mp hlang with h | h
  · rw [h] at hart
    simp only [if_true] at hart
    simp [hnn, hid, h, hfind, hpub, hart, htr, hparseE]
  · have h2 : jstrEq (propOf b "language") "english" = false :=
      jstrEq_french_not_english _ h
    rw [h2] at hart
    simp only [Bool.false_eq_true, if_false] at hart
    simp [hnn, hid, h, h2, hfind, hpub, hart, htr, hparseE]

/-- Path lemma: on a publish request that passes validation, the
media-decoding stage can never prevent the post-creation call — it is
made exactly once whatever `media_urls` holds. -/
lemma media_never_blocks_post (req : Req) (env : Env) (b : JVal) (id : Int) (tw : Tweet)
    (articleData articleParsed : JVal)
    (hbody : req.body = .ok b) (hnn : isNullish b = false)
    (hid : parseIntJS req.paramsId = some id)
    (hlang : (jstrEq (propOf b "language") "english" || jstrEq (propOf b "language") "french") = true)
    (hfind : (tweets_getAll env.store 10000 0).find? (fun t => t.id == id) = some tw)
    (hpub : truthy (propOf b "published") = true)
    (hart : (if jstrEq (propOf b "language") "english" then tw.article_english
             else tw.article_french) = articleData)
    (htr : truthy articleData = true)
    (hparse : (match articleData with
               | .str s => env.parse s
               | v => .ok v) = .ok articleParsed)
    (hnnP : isNullish articleParsed = false)
    (htitle : truthy (propOf articleParsed "title") = true)
    (hbodyOk : (!truthy (propOf articleParsed "article")
                && !truthy (propOf articleParsed "content")) = false)
    (hset : ∀ k, truthy (settings_get env.settings k) = true) :
    (POST req env).2.postCalls = 1 := by
  rw [POST_reaches_submit req env b id tw articleData articleParsed
    hbody hnn hid hlang hfind hpub hart htr hparse hnnP htitle hbodyOk hset]
  rw [(submitPost_eff _ _ _ _ _).2.1]
  rfl

/-- C7 (amended): failure to decode `media_urls` never causes the
request to fail.  Malformed JSON or a non-array value is swallowed and
treated as no media; array entries that are neither strings nor objects
carrying a truthy mediaUrl/url are skipped individually, the pipeline
proceeding with the remaining decoded URLs (a null entry stops the entry
loop with a thrown-and-caught TypeError, keeping the URLs decoded so
far); a validated publish request always reaches the post-creation call
whatever `media_urls` holds; decode failure of the article field itself
returns 400 "Invalid article data format". -/
theorem media_decode_soft_article_decode_400 :
    (∀ (env : Env) (tw : Tweet) (s e : String), tw.media_urls = .str s →
      env.parse s = .error e → mediaUrlsOf env tw = [])
    ∧ (∀ n : Int, collectMedia (.num n) = [])
    ∧ (∀ fs, collectMedia (.obj fs) = [])
    ∧ (∀ s, collectMedia (.str s) = [])
    ∧ collectMedia .null = []
    ∧ (∀ (n : Int) rest acc, collectEntries (JVal.num n :: rest) acc = collectEntries rest acc)
    ∧ (∀ fs rest acc,
        truthy (jsOr (propOf (.obj fs) "mediaUrl") (jsOr (propOf (.obj fs) "url") .null)) = false →
        collectEntries (JVal.obj fs :: rest) acc = collectEntries rest acc)
    ∧ (∀ rest acc, collectEntries (JVal.null :: rest) acc = acc)
    ∧ (∀ (req : Req) (env : Env) (b : JVal) (id : Int) (tw : Tweet)
        (articleData articleParsed : JVal),
        req.body = .ok b → isNullish b = false →
        parseIntJS req.paramsId = some id →
        (jstrEq (propOf b "language") "english" || jstrEq (propOf b "language") "french") = true →
        (tweets_getAll env.store 10000 0).find? (fun t => t.id == id) = some tw →
        truthy (propOf b "published") = true →
        (if jstrEq (propOf b "language") "english" then tw.article_english
         else tw.article_french) = articleData →
        truthy articleData = true →
        (match articleData with
         | .str s => env.parse s
         | v => .ok v) = .ok articleParsed →
        isNullish articleParsed = false →
        truthy (propOf articleParsed "title") = true →
        (!truthy (propOf articleParsed "article")
          && !truthy (propOf articleParsed "content")) = false →
        (∀ k, truthy (settings_get env.settings k) = true) →
        (POST req env).2.postCalls = 1)
    ∧ (∀ (req : Req) (env : Env) (b : JVal) (id : Int) (tw : Tweet)
        (articleData : JVal) (e : String),
        req.body = .ok b → isNullish b = false →
        parseIntJS req.paramsId = some id →
        (jstrEq (propOf b "language") "english" || jstrEq (propOf b "language") "french") = true →
        (tweets_getAll env.store 10000 0).find? (fun t => t.id == id) = some tw →
        truthy (propOf b "published") = true →
        (if jstrEq (propOf b "language") "english" then tw.article_english
         else tw.article_french) = articleData →
        truthy articleData = true →
        (match articleData with
         | .str s => env.parse s
         | v => .ok v) = .error e →
        POST req env = (mkErr 400 "Invalid article data format", Effects.empty)) := by
  refine ⟨?_, ?_, ?_, ?_, rfl, ?_, ?_, ?_, ?_, ?_⟩
  · intro env tw s e htw hp
    cases h : truthy (JVal.str s) <;> simp [mediaUrlsOf, htw, hp, h]
  · intro n
    rfl
  · intro fs
    rfl
  · intro s
    rfl
  · intro n rest acc
    rfl
  · intro fs rest acc h
    simp [collectEntries, h]
  · intro rest acc
    rfl
  · intro req env b id tw articleData articleParsed h1 h2 h3 h4 h5 h6 h7 h8 h9 h10 h11 h12 h13
    exact media_never_blocks_post req env b id tw articleData articleParsed
      h1 h2 h3 h4 h5 h6 h7 h8 h9 h10 h11 h12 h13
  · intro req env b id tw articleData e h1 h2 h3 h4 h5 h6 h7 h8 h9
    exact article_parse_error_400 req env b id tw articleData e
      h1 h2 h3 h4 h5 h6 h7 h8 h9

/-- A tweet whose media text does not parse as JSON. -/
def badMediaTweet : Tweet := { sampleTweet with media_urls := .str "nope" }

/-- A tweet whose English article text does not parse as JSON. -/
def badArticleTweet : Tweet := { sampleTweet with article_english := .str "artbad" }

/-- Environment holding `badArticleTweet` (its `parse` rejects
everything). -/
def badArticleEnv : Env := { baseEnv with store := [badArticleTweet] }

/-- Witness for C7 (amended): malformed media JSON yields no media, an
invalid entry is skipped, a null entry stops the loop, the three-media
publish with an invalid entry still reaches the post call, and a
non-decodable article text yields the 400. -/
theorem media_decode_soft_article_decode_400_witness :
    mediaUrlsOf baseEnv badMediaTweet = []
    ∧ collectEntries [JVal.num 5, JVal.str "x"] [] = collectEntries [JVal.str "x"] []
    ∧ collectEntries [JVal.null, JVal.str "x"] [JVal.str "a"] = [JVal.str "a"]
    ∧ (POST publishReq mixedEnv).2.postCalls = 1
    ∧ POST publishReq badArticleEnv = (mkErr 400 "Invalid article data format", Effects.empty) := by
  have h := media_decode_soft_article_decode_400
  refine ⟨h.1 baseEnv badMediaTweet "nope" "Unexpected token" rfl rfl,
    h.2.2.2.2.2.1 5 [JVal.str "x"] [],
    h.2.2.2.2.2.2.2.1 [JVal.str "x"] [JVal.str "a"],
    h.2.2.2.2.2.2.2.2.1 publishReq mixedEnv
      (.obj [("language", .str "english"), ("published", .bool true)]) 7 mixedTweet
      (.obj [("title", .str "T"), ("article", .str "Body")])
      (.obj [("title", .str "T"), ("article", .str "Body")])
      rfl rfl rfl rfl rfl rfl rfl rfl rfl rfl rfl rfl (fun _ => rfl),
    h.2.2.2.2.2.2.2.2.2 publishReq badArticleEnv
      (.obj [("language", .str "english"), ("published", .bool true)]) 7 badArticleTweet
      (.str "artbad") "Unexpected token"
      rfl rfl rfl rfl rfl rfl rfl rfl rfl⟩
